import Mathlib

/-!
Shallow embedding of the Taurusqlite webview client (src/webview-src/index.ts).

The client translates each typed method call into one remote command
dispatched over an asynchronous invoke channel and translates the single
reply (or rejection) back into a typed resolved value or a rejection.
We embed each method as two pure functions:

* a dispatch function producing the `Payload` of the single command the
  method sends (optional arguments are `Option`s; the source defaults are
  applied exactly where the source applies them), paired with the session
  state after the call for the instance methods; and
* a result function mapping the executor reply, an
  `Except JsVal reply-type` standing for the settled promise of the
  invoke call, to the settled promise of the method itself.

`JsVal` models the shape of JavaScript rejection values that matter here:
a bare string, an `Error` object carrying a message, or any other opaque
value.
-/

/-- Open database options: `disable_foreign_keys` is an optional field;
`none` models the field being absent from the object. -/
structure OpenOptions where
  disable_foreign_keys : Option Bool
deriving DecidableEq, Repr

/-- JavaScript values used as promise rejection reasons: a bare string,
an Error object with a message, or some other opaque value. -/
inductive JsVal where
  | str : String → JsVal
  | errObj : String → JsVal
  | other : Nat → JsVal
deriving DecidableEq, Repr

/-- The payload of one remote command, over opaque bind-parameter values
of type `P`.  The options field of `loadCmd`/`openCmd` and the params
field of `selectCmd` are `Option`s so that an absent/undefined field is
representable and the defaulting done by the client is observable. -/
inductive Payload (P : Type) where
  | loadCmd : Option OpenOptions → Payload P
  | openCmd : String → Option OpenOptions → Payload P
  | setPragmaCmd : String → String → P → Payload P
  | selectCmd : String → String → Option (List P) → Payload P
  | executeCmd : String → String → List P → Payload P
  | batchCmd : String → List (String × List P) → Payload P
deriving DecidableEq, Repr

/-- The session object: its only state is the database path. -/
structure Taurusqlite where
  path : String
deriving DecidableEq, Repr

/-- List of queries to run in batch. -/
abbrev BatchQueries (P : Type) : Type := List (String × List P)

variable {P T : Type}

/-- The queries field of a dispatched batch command, when the payload is
a batch command. -/
def Payload.batchQueriesOf : Payload P → Option (List (String × List P))
  | Payload.batchCmd _ qs => some qs
  | _ => none

/-- The dbPath field of a dispatched command, when present. -/
def Payload.cmdPath : Payload P → Option String
  | Payload.loadCmd _ => none
  | Payload.openCmd p _ => some p
  | Payload.setPragmaCmd p _ _ => some p
  | Payload.selectCmd p _ _ => some p
  | Payload.executeCmd p _ _ => some p
  | Payload.batchCmd p _ => some p

/-- Dispatch of `connect`: defaults an omitted options argument to the
empty object, then sends the open command with the session path and the
options. -/
def Taurusqlite.connect (db : Taurusqlite) (options : Option OpenOptions) :
    Payload P :=
  Payload.openCmd db.path (some (options.getD (OpenOptions.mk none)))

/-- Dispatch of the static `load`: defaults an omitted options argument to
the empty object and sends the load command with it. -/
def Taurusqlite.load (options : Option OpenOptions) : Payload P :=
  Payload.loadCmd (some (options.getD (OpenOptions.mk none)))

/-- Result step of `load`: on success the new instance (constructed with
path `''`) has its path set to the string the executor returned and the
promise resolves with it; a rejection of the invoke call is passed to
`reject` unchanged. -/
def Taurusqlite.load_result (reply : Except JsVal String) :
    Except JsVal Taurusqlite :=
  match reply with
  | Except.ok storePath => Except.ok (Taurusqlite.mk storePath)
  | Except.error e => Except.error e

/-- Dispatch of the static `open` (named `openDb` here since `open` is a
keyword): constructs the instance with the given path and runs its
`connect` step with the options. -/
def Taurusqlite.openDb (path : String) (options : Option OpenOptions) :
    Payload P :=
  Taurusqlite.connect (Taurusqlite.mk path) options

/-- Result step of `open`: on reply `true` resolve with the instance
(whose path is the argument); on reply `false` reject with the bare
string built from the path; a rejection of the invoke call is passed to
`reject` unchanged. -/
def Taurusqlite.openDb_result (path : String) (reply : Except JsVal Bool) :
    Except JsVal Taurusqlite :=
  match reply with
  | Except.ok true => Except.ok (Taurusqlite.mk path)
  | Except.ok false =>
      Except.error (JsVal.str ("Unable to open database " ++ path ++ "."))
  | Except.error e => Except.error e

/-- Dispatch of `setPragma`: sends the set_pragma command with the session
path, key and value; the session is not modified. -/
def Taurusqlite.setPragma (db : Taurusqlite) (key : String) (value : P) :
    Payload P × Taurusqlite :=
  (Payload.setPragmaCmd db.path key value, db)

/-- Result step of `setPragma`: the promise of the invoke call is returned
directly, so the reply (or rejection) is passed through verbatim. -/
def Taurusqlite.setPragma_result (reply : Except JsVal Bool) :
    Except JsVal Bool :=
  reply

/-- Dispatch of `select`: defaults an omitted params argument to the empty
array, then sends the select command with the session path, the query and
the params; the session is not modified. -/
def Taurusqlite.select (db : Taurusqlite) (query : String)
    (params : Option (List P)) : Payload P × Taurusqlite :=
  (Payload.selectCmd db.path query (some (params.getD [])), db)

/-- Result step of `select`: the promise of the invoke call is returned
directly, so the reply (or rejection) is passed through verbatim, cast to
the caller-supplied row type without validation. -/
def Taurusqlite.select_result (reply : Except JsVal (List T)) :
    Except JsVal (List T) :=
  reply

/-- Dispatch of `selectFirst`: sends the select command with the session
path, the query and the params argument exactly as received — the source
has no defaulting step here, so an omitted params stays absent; the
session is not modified. -/
def Taurusqlite.selectFirst (db : Taurusqlite) (query : String)
    (params : Option (List P)) : Payload P × Taurusqlite :=
  (Payload.selectCmd db.path query params, db)

/-- Result step of `selectFirst`: on a successful reply, if the results
array has positive length resolve with its element at index 0, otherwise
reject with a locally constructed Error object with message
`'No results'`; a rejection of the invoke call is passed to `reject`
unchanged. -/
def Taurusqlite.selectFirst_result (reply : Except JsVal (List T)) :
    Except JsVal T :=
  match reply with
  | Except.ok results =>
      if h : 0 < results.length then Except.ok results[0]
      else Except.error (JsVal.errObj "No results")
  | Except.error e => Except.error e

/-- Dispatch of `execute`: defaults an omitted params argument to the
empty array, then sends the execute command with the session path, the
query and the params; the session is not modified. -/
def Taurusqlite.execute (db : Taurusqlite) (query : String)
    (params : Option (List P)) : Payload P × Taurusqlite :=
  (Payload.executeCmd db.path query (params.getD []), db)

/-- Result step of `execute`: the promise of the invoke call is returned
directly, so the reply (or rejection) is passed through verbatim. -/
def Taurusqlite.execute_result (reply : Except JsVal Bool) :
    Except JsVal Bool :=
  reply

/-- Dispatch of `batch`: sends a single batch command with the session
path and the callers query list unchanged; the session is not
modified. -/
def Taurusqlite.batch (db : Taurusqlite) (queries : BatchQueries P) :
    Payload P × Taurusqlite :=
  (Payload.batchCmd db.path queries, db)

/-- Result step of `batch`: the promise of the invoke call is returned
directly, so the reply (or rejection) is passed through verbatim. -/
def Taurusqlite.batch_result (reply : Except JsVal Bool) :
    Except JsVal Bool :=
  reply

/-- Claim C1: for every query and params, if the dispatched select command
succeeds with an empty sequence, `selectFirst` rejects with the locally
constructed no-results failure rather than resolving; if the underlying
select command itself rejects, that rejection propagates unchanged; and no
other operation converts an empty (or any) successful result into a
failure: `select` returns every successful sequence verbatim, and the
boolean operations pass every reply through verbatim. -/
theorem C1_selectFirst_local_no_results :
    ∀ (T : Type) (e : JsVal) (rows : List T) (r : Except JsVal Bool),
      Taurusqlite.selectFirst_result (Except.ok ([] : List T))
          = Except.error (JsVal.errObj "No results")
        ∧ (∀ s : T, Taurusqlite.selectFirst_result (Except.ok ([] : List T))
              ≠ Except.ok s)
        ∧ Taurusqlite.selectFirst_result (Except.error e)
            = (Except.error e : Except JsVal T)
        ∧ Taurusqlite.select_result (Except.ok ([] : List T)) = Except.ok []
        ∧ Taurusqlite.select_result (Except.ok rows) = Except.ok rows
        ∧ Taurusqlite.setPragma_result r = r
        ∧ Taurusqlite.execute_result r = r
        ∧ Taurusqlite.batch_result r = r := by
  intro T e rows r
  refine ⟨rfl, ?_, rfl, rfl, rfl, rfl, rfl, rfl⟩
  intro s h
  exact Except.noConfusion h

/-- Claim C2: `open` resolves with a session exactly when the executor
reply is the boolean `true`; on reply `false` it rejects with a locally
constructed failure whose message contains the attempted path; and an
executor rejection propagates unchanged. -/
theorem C2_open_result_semantics :
    ∀ (path : String) (e : JsVal) (r : Except JsVal Bool),
      Taurusqlite.openDb_result path (Except.ok true)
          = Except.ok (Taurusqlite.mk path)
        ∧ ((∃ s, Taurusqlite.openDb_result path r = Except.ok s)
            ↔ r = Except.ok true)
        ∧ (∃ a b, Taurusqlite.openDb_result path (Except.ok false)
            = Except.error (JsVal.str (a ++ path ++ b)))
        ∧ Taurusqlite.openDb_result path (Except.error e) = Except.error e := by
  intro path e r
  refine ⟨rfl, ?_, ⟨"Unable to open database ", ".", rfl⟩, rfl⟩
  cases r with
  | ok b => cases b <;> simp [Taurusqlite.openDb_result]
  | error e => simp [Taurusqlite.openDb_result]

/-- Claim C3 counterexample: with the params argument omitted, the select
command dispatched by `selectFirst` carries an absent params field, not
the empty sequence that `select` dispatches, so the two dispatches differ
at the concrete query `SELECT 1`. -/
theorem C3_counterexample :
    (Taurusqlite.selectFirst (Taurusqlite.mk "db") "SELECT 1"
        (none : Option (List Nat))).1
      ≠ (Taurusqlite.select (Taurusqlite.mk "db") "SELECT 1"
        (none : Option (List Nat))).1
    ∧ (Taurusqlite.selectFirst (Taurusqlite.mk "db") "SELECT 1"
        (none : Option (List Nat))).1
      ≠ Payload.selectCmd "db" "SELECT 1" (some ([] : List Nat)) := by
  constructor <;> · intro h
                    simp [Taurusqlite.selectFirst, Taurusqlite.select] at h

/-- Claim C3 amended: `selectFirst` passes its params argument through to
the dispatched select command exactly as received — when the argument is
omitted the dispatched params field is absent rather than defaulted to an
empty sequence — while `select` defaults an omitted params argument to
the empty sequence; when params is explicitly supplied the two dispatch
identical commands. -/
theorem C3_selectFirst_params_passthrough :
    ∀ (P : Type) (db : Taurusqlite) (q : String) (ps : Option (List P))
      (l : List P),
      (Taurusqlite.selectFirst db q ps).1 = Payload.selectCmd db.path q ps
        ∧ (Taurusqlite.selectFirst db q none).1
            = Payload.selectCmd db.path q (none : Option (List P))
        ∧ (Taurusqlite.select db q none).1
            = Payload.selectCmd db.path q (some ([] : List P))
        ∧ (Taurusqlite.selectFirst db q (some l)).1
            = (Taurusqlite.select db q (some l)).1 := by
  intro P db q ps l
  exact ⟨rfl, rfl, rfl, rfl⟩

/-- Claim C4: `select` dispatches a select command carrying the session
path, the query text and the parameter sequence (defaulting to the empty
sequence when omitted), and resolves with exactly the sequence the
executor returns — in particular an empty reply yields an empty sequence,
and the settled outcome is the reply itself, so it rejects exactly when
the executor call rejects. -/
theorem C4_select_semantics :
    ∀ (P T : Type) (db : Taurusqlite) (q : String) (l : List P)
      (rows : List T) (r : Except JsVal (List T)),
      (Taurusqlite.select db q (none : Option (List P))).1
          = Payload.selectCmd db.path q (some ([] : List P))
        ∧ (Taurusqlite.select db q (some l)).1
            = Payload.selectCmd db.path q (some l)
        ∧ Taurusqlite.select_result (Except.ok rows) = Except.ok rows
        ∧ Taurusqlite.select_result (Except.ok ([] : List T)) = Except.ok []
        ∧ Taurusqlite.select_result r = r := by
  intro P T db q l rows r
  exact ⟨rfl, rfl, rfl, rfl, rfl⟩

/-- Claim C5: whenever the dispatched select command resolves with a
non-empty sequence, `selectFirst` resolves with the element at index 0 of
that sequence. -/
theorem C5_selectFirst_first :
    ∀ (T : Type) (x : T) (rest : List T),
      Taurusqlite.selectFirst_result (Except.ok (x :: rest)) = Except.ok x := by
  intro T x rest
  simp [Taurusqlite.selectFirst_result]

/-- Claim C6: `setPragma`, `execute` and `batch` each settle with the
executor reply verbatim — a `false` reply resolves as `false` (no
false-to-rejection conversion) and a rejection passes through
unchanged. -/
theorem C6_bool_ops_verbatim :
    ∀ (r : Except JsVal Bool) (e : JsVal),
      Taurusqlite.setPragma_result r = r
        ∧ Taurusqlite.execute_result r = r
        ∧ Taurusqlite.batch_result r = r
        ∧ Taurusqlite.setPragma_result (Except.ok false) = Except.ok false
        ∧ Taurusqlite.execute_result (Except.ok false) = Except.ok false
        ∧ Taurusqlite.batch_result (Except.ok false) = Except.ok false
        ∧ Taurusqlite.setPragma_result (Except.error e) = Except.error e
        ∧ Taurusqlite.execute_result (Except.error e) = Except.error e
        ∧ Taurusqlite.batch_result (Except.error e) = Except.error e := by
  intro r e
  exact ⟨rfl, rfl, rfl, rfl, rfl, rfl, rfl, rfl, rfl⟩

/-- Claim C7: `batch` dispatches exactly one batch command whose payload
carries the session path and the caller's ordered query sequence
unchanged — same order, same per-pair contents. -/
theorem C7_batch_marshal :
    ∀ (P : Type) (db : Taurusqlite) (qs : BatchQueries P),
      (Taurusqlite.batch db qs).1 = Payload.batchCmd db.path qs
        ∧ Payload.batchQueriesOf (Taurusqlite.batch db qs).1 = some qs
        ∧ Payload.cmdPath (Taurusqlite.batch db qs).1 = some db.path := by
  intro P db qs
  exact ⟨rfl, rfl, rfl⟩

/-- Claim C8: a session's path is set exactly once: `open` resolves with a
session whose path is the path argument, `load` resolves with a session
whose path is the string the executor returned, and `setPragma`,
`select`, `selectFirst`, `execute` and `batch` all leave the session —
hence its path — unchanged. -/
theorem C8_path_set_once :
    ∀ (P : Type) (path key q s : String) (v : P) (ps : Option (List P))
      (db : Taurusqlite) (qs : BatchQueries P),
      Taurusqlite.openDb_result path (Except.ok true)
          = Except.ok (Taurusqlite.mk path)
        ∧ Taurusqlite.load_result (Except.ok s)
            = Except.ok (Taurusqlite.mk s)
        ∧ (Taurusqlite.setPragma db key v).2 = db
        ∧ (Taurusqlite.select db q ps).2 = db
        ∧ (Taurusqlite.selectFirst db q ps).2 = db
        ∧ (Taurusqlite.execute db q ps).2 = db
        ∧ (Taurusqlite.batch db qs).2 = db := by
  intro P path key q s v ps db qs
  exact ⟨rfl, rfl, rfl, rfl, rfl, rfl, rfl⟩

/-- Claim C9: when the options argument is omitted, both `open` and
`load` dispatch their command with a present, empty options object (no
disable_foreign_keys field), not an absent options field; an explicitly
supplied options value is passed through unmodified. -/
theorem C9_default_options :
    ∀ (P : Type) (path : String) (o : OpenOptions),
      (Taurusqlite.openDb path none : Payload P)
          = Payload.openCmd path (some (OpenOptions.mk none))
        ∧ (Taurusqlite.load none : Payload P)
            = Payload.loadCmd (some (OpenOptions.mk none))
        ∧ (Taurusqlite.openDb path (some o) : Payload P)
            = Payload.openCmd path (some o)
        ∧ (Taurusqlite.load (some o) : Payload P)
            = Payload.loadCmd (some o) := by
  intro P path o
  exact ⟨rfl, rfl, rfl, rfl⟩

/-- Claim C10: the two locally constructed failures have different value
shapes — the rejection of `open` on an executor `false` is the bare
string built from the path (not an Error object), while the rejection of
`selectFirst` on an empty result is an Error object whose message is
exactly `No results` — and a bare string is never equal to an Error
object. -/
theorem C10_failure_shapes :
    ∀ (T : Type) (path s m : String),
      Taurusqlite.openDb_result path (Except.ok false)
          = Except.error
              (JsVal.str ("Unable to open database " ++ path ++ "."))
        ∧ (Taurusqlite.selectFirst_result (Except.ok ([] : List T))
              : Except JsVal T)
            = Except.error (JsVal.errObj "No results")
        ∧ JsVal.str s ≠ JsVal.errObj m := by
  intro T path s m
  refine ⟨rfl, rfl, ?_⟩
  intro h
  exact JsVal.noConfusion h
